import Mathlib

/-!
Verification of the model-release-platform repository: a shallow embedding of
the traffic router (serving/router.py), the canary bucket assigner
(src/ml_lifecycle_platform/serving/router.py), the release policy evaluator
(project/src/policy/release_policy.py), the promotion CLI (project/src/promote.py),
the rollback executor (project/src/rollback.py) and the serving model cache
(serving/app.py), together with proofs of the specified properties.

Machine integers are modelled as Lean Int/Nat (Python ints are arbitrary
precision, so no wrap-around is modelled).  Registry interaction is modelled
as an explicit registry state plus a trace of the registry-client calls a
function performs; mutating calls are replayed against the state with
applyCall, so frame properties are statements about real state.
-/

namespace ModelReleasePlatform

/-! ## Constants (serving/constants.py and project/src/common/constants.py) -/

def ALIAS_PROD : String := "prod"
def ALIAS_CANDIDATE : String := "candidate"
def ALIAS_CHAMPION : String := "champion"

def MODE_PROD : String := "prod"
def MODE_CANDIDATE : String := "candidate"
def MODE_CANARY : String := "canary"
def MODE_SHADOW : String := "shadow"

def TAG_GIT_SHA : String := "git_sha"
def TAG_SOURCE_RUN_ID : String := "source_run_id"
def TAG_GATE : String := "gate"
def TAG_RELEASE_STATUS : String := "release_status"
def TAG_PROMOTED_FROM_ALIAS : String := "promoted_from_alias"
def TAG_PREVIOUS_PROD_VERSION : String := "previous_prod_version"
def TAG_DATASET_FINGERPRINT : String := "dataset_fingerprint"
def TAG_CONFIG_HASH : String := "config_hash"
def TAG_TRAINING_RUN_ID : String := "training_run_id"

def GATE_PASSED : String := "passed"
def RELEASE_STATUS_PREVIOUS_PROD : String := "previous_prod"

/-! ## Routing policy (serving/router.py, decide_routing) -/

/-- RoutingDecision from serving/router.py: `chosen` is the alias string used
for the returned prediction ("prod" or "candidate"), `run_shadow` says whether
the other model is also run for comparison. -/
structure RoutingDecision where
  chosen : String
  run_shadow : Bool
  deriving Repr, DecidableEq

/-- The two ways decide_routing raises ValueError: an out-of-range bucket, or
an unrecognized mode string. -/
inductive RouterError where
  | invalidBucket (bucket : Int)
  | unknownMode (mode : String)
  deriving Repr, DecidableEq

/-- decide_routing from serving/router.py.  The bucket range check comes
first; canary_pct is then clamped to [0,100]; then the mode dispatch.  The
mode is a string, matching the source's string comparison chain (the final
branch raises "Unknown mode"). -/
def decide_routing (mode : String) (canary_pct : Int) (bucket : Int) :
    Except RouterError RoutingDecision :=
  if ¬ (0 ≤ bucket ∧ bucket ≤ 99) then
    .error (.invalidBucket bucket)
  else
    let pct : Int := max 0 (min 100 canary_pct)
    if mode = MODE_PROD then
      .ok ⟨ALIAS_PROD, false⟩
    else if mode = MODE_CANDIDATE then
      .ok ⟨ALIAS_CANDIDATE, false⟩
    else if mode = MODE_SHADOW then
      .ok ⟨ALIAS_PROD, true⟩
    else if mode = MODE_CANARY then
      if bucket < pct then
        .ok ⟨ALIAS_CANDIDATE, true⟩
      else
        .ok ⟨ALIAS_PROD, true⟩
    else
      .error (.unknownMode mode)

/-! ## Bucket assigner (src/ml_lifecycle_platform/serving/router.py) -/

/-- SeedSource from router.py: the entropy source used for bucketing. -/
inductive SeedSource where
  | request_id
  | payload_hash
  | random
  deriving Repr, DecidableEq

/-- Request rows: a list of feature dicts.  Feature values are modelled as
strings (their concrete type is irrelevant to every claim about bucketing;
only payload equality matters). -/
def Rows : Type := List (List (String × String))

/-- BucketContext from router.py. -/
structure BucketContext where
  request_id : Option String
  client_provided_request_id : Bool
  rows : Rows

/-- BucketDecision from router.py. -/
structure BucketDecision where
  bucket : Nat
  seed_source : SeedSource
  deriving Repr, DecidableEq

/-- stable_bucket_from_bytes from router.py: SHA-256 of the payload, read as
an integer, mod 100.  The digest-as-integer is passed in as `shaNum`: the
source fixes it to SHA-256, and every claim about bucketing depends only on
the digest being a deterministic function of the payload (the spec itself
says the algorithm choice is free given determinism), so the embedding is
parametric in it. -/
def stable_bucket_from_bytes (shaNum : String → Nat) (payload : String) : Nat :=
  shaNum payload % 100

/-- stable_bucket_from_str from router.py (UTF-8 encoding is the identity in
this string-level model). -/
def stable_bucket_from_str (shaNum : String → Nat) (seed : String) : Nat :=
  stable_bucket_from_bytes shaNum seed

/-- stable_bucket_from_rows from router.py.  `dumps` models
json.dumps(rows, sort_keys=True, separators=(",", ":")): a deterministic
serializer that can fail (None) on non-serializable payloads, which in the
source raises and is caught by the caller. -/
def stable_bucket_from_rows (shaNum : String → Nat)
    (dumps : Rows → Option String) (rows : Rows) : Option Nat :=
  (dumps rows).map (stable_bucket_from_bytes shaNum)

/-- choose_canary_bucket from router.py: seed priority is client-provided
request id (when truthy), then payload hash, then a random fallback seed
(secrets.token_hex(16), passed in as `randomSeed` since it is the one
nondeterministic input). -/
def choose_canary_bucket (shaNum : String → Nat)
    (dumps : Rows → Option String) (randomSeed : String)
    (ctx : BucketContext) : BucketDecision :=
  if ctx.client_provided_request_id ∧ ctx.request_id.getD "" ≠ "" then
    ⟨stable_bucket_from_str shaNum (ctx.request_id.getD ""), .request_id⟩
  else
    match stable_bucket_from_rows shaNum dumps ctx.rows with
    | some b => ⟨b, .payload_hash⟩
    | none => ⟨stable_bucket_from_str shaNum randomSeed, .random⟩

/-! ## Registry model (mlflow client, as used by policy / promote / rollback)

The registry is the opaque alias/tag/run store behind MlflowClient.  Each
function that talks to it is embedded as a function of the registry state
that also returns the trace of client calls it made; mutating calls are
replayed with applyCall, so "registry after" is applyTrace of the trace. -/

/-- One MlflowClient call, as issued by the code under verification. -/
inductive RegCall where
  | getVersionByAlias (model aliasName : String)
  | getModelVersion (model version : String)
  | getRun (runId : String)
  | setAlias (model aliasName version : String)
  | setTag (model version key value : String)
  deriving Repr, DecidableEq

/-- setAlias (set_registered_model_alias) and setTag (set_model_version_tag)
are the mutating calls; the rest are reads. -/
def RegCall.isMutating : RegCall → Bool
  | .setAlias _ _ _ => true
  | .setTag _ _ _ _ => true
  | _ => false

/-- Registry state: the alias table ((model, alias) → version), the tag
table ((model, version, key) → value) and which run ids resolve. -/
structure Registry where
  aliases : String → String → Option String
  tags : String → String → String → Option String
  runs : String → Bool

/-- Replay one call against the registry state (reads change nothing). -/
def applyCall (reg : Registry) : RegCall → Registry
  | .setAlias m a v =>
      { reg with
        aliases := fun m2 a2 => if m2 = m ∧ a2 = a then some v else reg.aliases m2 a2 }
  | .setTag m v k val =>
      { reg with
        tags := fun m2 v2 k2 =>
          if m2 = m ∧ v2 = v ∧ k2 = k then some val else reg.tags m2 v2 k2 }
  | _ => reg

/-- Replay a call trace in order. -/
def applyTrace (reg : Registry) (t : List RegCall) : Registry :=
  t.foldl applyCall reg

/-- True of the registry calls that write the given tag key. -/
def writesTag (key : String) : RegCall → Bool
  | .setTag _ _ k _ => k = key
  | _ => false

/-! ## Release policy evaluator (project/src/policy/release_policy.py) -/

/-- Violation from release_policy.py.  details (a str → Any dict in the
source) is modelled as ordered key/value string pairs, list values joined
with commas. -/
structure Violation where
  code : String
  message : String
  details : List (String × String)
  deriving Repr, DecidableEq

/-- The context dict built by evaluate_promotion_policy.  The tags subset is
none on the MISSING_ALIAS early return, where the source never adds that
key. -/
structure PolicyContext where
  model_name : String
  from_alias : String
  to_alias : String
  candidate_version : Option String
  current_prod_version : Option String
  candidate_tags_subset : Option (List (String × String))
  deriving Repr, DecidableEq

/-- PolicyDecision from release_policy.py. -/
structure PolicyDecision where
  allowed : Bool
  errors : List Violation
  warnings : List Violation
  context : PolicyContext
  deriving Repr, DecidableEq

/-- The _REQUIRED_TAGS tuple from release_policy.py. -/
def _REQUIRED_TAGS : List String :=
  [TAG_DATASET_FINGERPRINT, TAG_GIT_SHA, TAG_CONFIG_HASH, TAG_TRAINING_RUN_ID]

/-- Python str.strip() on whitespace, modelled over the character list (the
built-in String.trim is not kernel-reducible, which witnesses need). -/
def pyStrip (s : String) : String :=
  String.mk
    ((s.data.dropWhile Char.isWhitespace).reverse.dropWhile Char.isWhitespace).reverse

/-- Embeds _missing_required_tags: required keys whose value is absent or
whitespace-only (str(...).strip() is falsy). -/
def _missing_required_tags (tags : String → Option String) : List String :=
  _REQUIRED_TAGS.filter (fun k => pyStrip ((tags k).getD "") = "")

/-- Embeds _try_get_alias_version: get_model_version_by_alias with the not-found
exception caught and turned into None. -/
def _try_get_alias_version (reg : Registry) (model_name aliasName : String) :
    Option String :=
  reg.aliases model_name aliasName

/-- evaluate_promotion_policy from release_policy.py, returning the decision
together with the trace of registry calls it issued. -/
def evaluate_promotion_policy (reg : Registry) (model_name from_alias to_alias : String) :
    PolicyDecision × List RegCall :=
  let candidate_version := _try_get_alias_version reg model_name from_alias
  let current_prod_version := _try_get_alias_version reg model_name to_alias
  let trace0 : List RegCall :=
    [.getVersionByAlias model_name from_alias, .getVersionByAlias model_name to_alias]
  match candidate_version with
  | none =>
      (⟨false,
        [⟨"MISSING_ALIAS", "Promotion blocked: alias does not exist.",
          [("alias", from_alias)]⟩],
        [],
        ⟨model_name, from_alias, to_alias, none, current_prod_version, none⟩⟩,
       trace0)
  | some cv =>
      let ctags : String → Option String := reg.tags model_name cv
      let tagv : String → String := fun k => (ctags k).getD ""
      let subset : List (String × String) :=
        [(TAG_GATE, tagv TAG_GATE), (TAG_RELEASE_STATUS, tagv TAG_RELEASE_STATUS),
         (TAG_SOURCE_RUN_ID, tagv TAG_SOURCE_RUN_ID),
         (TAG_DATASET_FINGERPRINT, tagv TAG_DATASET_FINGERPRINT),
         (TAG_GIT_SHA, tagv TAG_GIT_SHA), (TAG_CONFIG_HASH, tagv TAG_CONFIG_HASH),
         (TAG_TRAINING_RUN_ID, tagv TAG_TRAINING_RUN_ID)]
      let missing := _missing_required_tags ctags
      let errors1 : List Violation :=
        if missing = [] then [] else
          [⟨"MISSING_REQUIRED_TAGS",
            "Promotion blocked: candidate model version is missing required metadata tags.",
            [("missing", String.intercalate "," missing)]⟩]
      let gate_val := pyStrip (tagv TAG_GATE)
      let errors2 : List Violation :=
        errors1 ++
          (if gate_val = GATE_PASSED then [] else
            [⟨"GATE_NOT_PASSED", "Promotion blocked: model gate status is not passed.",
              [("expected", GATE_PASSED), ("actual", gate_val)]⟩])
      let rs_val := pyStrip (tagv TAG_RELEASE_STATUS)
      let errors3 : List Violation :=
        errors2 ++
          (if rs_val = from_alias then [] else
            [⟨"INVALID_RELEASE_STATUS",
              "Promotion blocked: candidate release_status is not eligible for promotion.",
              [("expected", from_alias), ("actual", rs_val)]⟩])
      let errors4 : List Violation :=
        errors3 ++
          (if current_prod_version = some cv then
            [⟨"NOOP_PROMOTION",
              "Promotion blocked: candidate is already the current prod version.",
              [("candidate_version", cv), ("current_prod_version", cv)]⟩]
           else [])
      let source_run := pyStrip (tagv TAG_SOURCE_RUN_ID)
      let warnings : List Violation :=
        if source_run = "" then
          [⟨"MISSING_SOURCE_RUN_ID",
            "Missing source_run_id tag; promotion will be less auditable.",
            [("tag", TAG_SOURCE_RUN_ID)]⟩]
        else if reg.runs source_run then []
        else
          [⟨"SOURCE_RUN_ID_NOT_FOUND",
            "source_run_id tag is present but the MLflow run could not be fetched.",
            [("run_id", source_run)]⟩]
      let trace :=
        trace0 ++ [RegCall.getModelVersion model_name cv] ++
          (if source_run = "" then [] else [RegCall.getRun source_run])
      (⟨errors4.length == 0, errors4, warnings,
        ⟨model_name, from_alias, to_alias, some cv, current_prod_version, some subset⟩⟩,
       trace)

/-! ## Promotion CLI (project/src/promote.py) -/

/-- Embeds _try_get_prod_version from promote.py (get_model_version_by_alias with
every exception caught and turned into None). -/
def _try_get_prod_version (reg : Registry) (model_name : String) : Option String :=
  reg.aliases model_name ALIAS_PROD

/-- apply_promotion from promote.py: the ordered registry calls it issues.
The initial prod-alias read happens before any mutation; the two
previous-prod tag writes happen only when a previous prod version existed
(the second one is best-effort in the source, which changes nothing here
because tag writes in the registry model always succeed). -/
def apply_promotion (reg : Registry)
    (model_name candidate_version from_alias : String) : List RegCall :=
  [RegCall.getVersionByAlias model_name ALIAS_PROD,
   RegCall.setAlias model_name ALIAS_PROD candidate_version,
   RegCall.setAlias model_name ALIAS_CHAMPION candidate_version,
   RegCall.setTag model_name candidate_version TAG_RELEASE_STATUS ALIAS_PROD,
   RegCall.setTag model_name candidate_version TAG_PROMOTED_FROM_ALIAS from_alias] ++
  (match _try_get_prod_version reg model_name with
   | none => []
   | some prev_v =>
     [RegCall.setTag model_name candidate_version TAG_PREVIOUS_PROD_VERSION prev_v,
      RegCall.setTag model_name prev_v TAG_RELEASE_STATUS
        RELEASE_STATUS_PREVIOUS_PROD])

/-- main from promote.py: evaluate the policy, then — exit 0/2 immediately
under --dry-run; exit 2 without mutating when denied; otherwise apply the
promotion and exit 0.  Returns the exit code and the full registry trace.
str(context["candidate_version"]) turns None into "None", mirrored with
getD (that branch is unreachable when the decision is allowed). -/
def promote_main (reg : Registry) (model_name from_alias to_alias : String)
    (dry_run : Bool) : Nat × List RegCall :=
  let decision := (evaluate_promotion_policy reg model_name from_alias to_alias).1
  let trace := (evaluate_promotion_policy reg model_name from_alias to_alias).2
  if dry_run then
    (if decision.allowed then 0 else 2, trace)
  else if ¬ decision.allowed then
    (2, trace)
  else
    let candidate_version := decision.context.candidate_version.getD "None"
    (0, trace ++
      apply_promotion (applyTrace reg trace) model_name candidate_version from_alias)

/-! ## Rollback executor (project/src/rollback.py) -/

/-- The two failure modes of rollback_prod: the prod alias not resolving
(the registry clients not-found exception propagates out of
get_model_version_by_alias, uncaught) and the explicit RuntimeError raised
when the previous_prod_version tag is absent or whitespace-only. -/
inductive RollbackError where
  | aliasNotFound
  | rollbackBlocked
  deriving Repr, DecidableEq

/-- rollback_prod from rollback.py, returning the outcome and the registry
trace (the initial read always happens; the alias repoint and the undo tag
are issued only on success, in that order). -/
def rollback_prod (reg : Registry) (model_name : String) :
    Except RollbackError Unit × List RegCall :=
  match reg.aliases model_name ALIAS_PROD with
  | none => (.error .aliasNotFound, [.getVersionByAlias model_name ALIAS_PROD])
  | some current =>
    let prev := pyStrip ((reg.tags model_name current TAG_PREVIOUS_PROD_VERSION).getD "")
    if prev = "" then
      (.error .rollbackBlocked, [.getVersionByAlias model_name ALIAS_PROD])
    else
      (.ok (), [.getVersionByAlias model_name ALIAS_PROD,
        .setAlias model_name ALIAS_PROD prev,
        .setTag model_name prev TAG_PREVIOUS_PROD_VERSION current])

/-! ## Model cache (serving/app.py, _refresh_models_if_needed) -/

/-- Serving configuration (serving/settings.py), restricted to the fields the
cache logic reads.  Time is modelled in integer ticks, so
model_cache_ttl_sec (a float in the source) is an Int here. -/
structure Settings where
  model_name : String
  prod_alias : String
  candidate_alias : String
  canary_pct : Int
  model_cache_ttl_sec : Int
  unit_testing : Bool

/-- The module-level cache of serving/app.py: model_prod, model_candidate,
prod_version, candidate_version, _last_refresh_ts.  M is the opaque model
handle type. -/
structure CacheState (M : Type) where
  model_prod : Option M
  model_candidate : Option M
  prod_version : Option String
  candidate_version : Option String
  last_refresh_ts : Int

/-- Which _load_model call was attempted (prod slot vs candidate slot). -/
inductive LoadSlot where
  | prod
  | candidate
  deriving Repr, DecidableEq

/-- Outcome of _refresh_models_if_needed: the cache state it leaves behind
(including the state written before a load failure escaped), the load
attempts it made, and whether it returned normally. -/
structure RefreshResult (M : Type) where
  state : CacheState M
  attempts : List LoadSlot
  ok : Bool

/-- Python `x or y` on the optional version strings (None and the empty
string are falsy). -/
def pyOrStr (x y : Option String) : Option String :=
  match x with
  | some v => if v = "" then y else some v
  | none => y

/-- The tail of _refresh_models_if_needed after the prod-load step: the
candidate load-if-absent, the version refill, and the _last_refresh_ts
update. -/
def _refresh_after_prod {M : Type} (loader : String → Except Unit M)
    (getVer : String → Option String) (settings : Settings) (now : Int)
    (load_candidate : Bool) (st : CacheState M) (attempts : List LoadSlot) :
    RefreshResult M :=
  match
    (match load_candidate, st.model_candidate with
     | true, none =>
       (match loader settings.candidate_alias with
        | .error _ => none
        | .ok h =>
          some ({ st with model_candidate := some h }, attempts ++ [.candidate]))
     | _, _ => some (st, attempts) : Option (CacheState M × List LoadSlot)) with
  | none => ⟨st, attempts ++ [.candidate], false⟩
  | some (st2, a2) =>
    let st3 := { st2 with prod_version := pyOrStr st2.prod_version (getVer settings.prod_alias) }
    let st4 :=
      if load_candidate then
        { st3 with candidate_version := pyOrStr st3.candidate_version (getVer settings.candidate_alias) }
      else st3
    ⟨{ st4 with last_refresh_ts := now }, a2, true⟩

/-- Embeds _refresh_models_if_needed from serving/app.py.  `loader` models
_load_model (which can raise) and `getVer` models _get_version (which never
raises); both are parameters because they wrap mlflow.  The TTL no-op check
comes first; prod is loaded only when absent; candidate only when absent and
requested; version identifiers are filled with Python `or`; _last_refresh_ts
is set at the end (so not on a load failure, matching the source where the
exception escapes before the assignment). -/
def _refresh_models_if_needed {M : Type} (loader : String → Except Unit M)
    (getVer : String → Option String) (settings : Settings) (now : Int)
    (force load_candidate : Bool) (st : CacheState M) : RefreshResult M :=
  if ¬ force ∧ now - st.last_refresh_ts < settings.model_cache_ttl_sec then
    ⟨st, [], true⟩
  else
    match st.model_prod with
    | none =>
      match loader settings.prod_alias with
      | .error _ => ⟨st, [.prod], false⟩
      | .ok h =>
        _refresh_after_prod loader getVer settings now load_candidate
          { st with model_prod := some h } [.prod]
    | some _ =>
      _refresh_after_prod loader getVer settings now load_candidate st []

/-! ## Theorems -/

/-- C1: the full routing table of decide_routing for in-range buckets:
prod → (prod, no shadow); candidate → (candidate, no shadow);
shadow → (prod, shadow); canary → (candidate, shadow) when
bucket < clamped canary_pct and (prod, shadow) otherwise; and the two
concrete canary examples at canary_pct = 10, buckets 9 and 10. -/
theorem decide_routing_table (canary_pct bucket : Int)
    (h0 : 0 ≤ bucket) (h99 : bucket ≤ 99) :
    decide_routing "prod" canary_pct bucket = .ok ⟨"prod", false⟩ ∧
    decide_routing "candidate" canary_pct bucket = .ok ⟨"candidate", false⟩ ∧
    decide_routing "shadow" canary_pct bucket = .ok ⟨"prod", true⟩ ∧
    decide_routing "canary" canary_pct bucket =
      (if bucket < max 0 (min 100 canary_pct) then .ok ⟨"candidate", true⟩
       else .ok ⟨"prod", true⟩) ∧
    decide_routing "canary" 10 9 = .ok ⟨"candidate", true⟩ ∧
    decide_routing "canary" 10 10 = .ok ⟨"prod", true⟩ := by
  refine ⟨?_, ?_, ?_, ?_, by rfl, by rfl⟩ <;>
    simp [decide_routing, MODE_PROD, MODE_CANDIDATE, MODE_SHADOW, MODE_CANARY,
      ALIAS_PROD, ALIAS_CANDIDATE, h0, h99]

/-- Witness for decide_routing_table at canary_pct = 10, bucket = 9. -/
theorem decide_routing_table_witness :
    decide_routing "prod" 10 9 = .ok ⟨"prod", false⟩ ∧
    decide_routing "canary" 10 9 = .ok ⟨"candidate", true⟩ := by
  have h := decide_routing_table 10 9 (by decide) (by decide)
  exact ⟨h.1, h.2.2.2.2.1⟩

/-- C6: decide_routing rejects out-of-range buckets with InvalidBucket
whatever the mode (the range check precedes mode dispatch), and for the four
known modes an in-range bucket never produces an error for any canary_pct
(clamping makes canary_pct total). -/
theorem decide_routing_bucket_errors :
    (∀ (mode : String) (canary_pct bucket : Int),
      (bucket < 0 ∨ 99 < bucket) →
      decide_routing mode canary_pct bucket = .error (.invalidBucket bucket)) ∧
    (∀ (mode : String) (canary_pct bucket : Int),
      (mode = MODE_PROD ∨ mode = MODE_CANDIDATE ∨
        mode = MODE_SHADOW ∨ mode = MODE_CANARY) →
      0 ≤ bucket → bucket ≤ 99 →
      ∃ d, decide_routing mode canary_pct bucket = .ok d) := by
  constructor
  · intro mode canary_pct bucket hout
    have hrange : ¬ (0 ≤ bucket ∧ bucket ≤ 99) := by omega
    simp [decide_routing, hrange]
  · intro mode canary_pct bucket hmode h0 h99
    rcases hmode with h | h | h | h <;> subst h <;>
      simp [decide_routing, MODE_PROD, MODE_CANDIDATE, MODE_SHADOW, MODE_CANARY,
        h0, h99] <;>
      split <;> exact ⟨_, rfl⟩

/-- Witness for decide_routing_bucket_errors: out-of-range bucket 100 fails
in prod mode, and bucket 5 succeeds in canary mode with canary_pct = -3. -/
theorem decide_routing_bucket_errors_witness :
    decide_routing "prod" 0 100 = .error (.invalidBucket 100) ∧
    ∃ d, decide_routing "canary" (-3) 5 = .ok d := by
  have h := decide_routing_bucket_errors
  exact ⟨h.1 "prod" 0 100 (Or.inr (by decide)),
    h.2 "canary" (-3) 5 (Or.inr (Or.inr (Or.inr rfl))) (by decide) (by decide)⟩

/-- C5: bucketing is deterministic under the seed-priority chain.  Two
contexts with a client-provided identical non-empty request id get the same
bucket with seed_source = request_id, whatever the rows and whatever the
random fallback seeds; two contexts with no client-provided request id and
identical serializable rows get the same bucket with
seed_source = payload_hash. -/
theorem choose_canary_bucket_deterministic (shaNum : String → Nat)
    (dumps : Rows → Option String) (r1 r2 : String)
    (ctx1 ctx2 : BucketContext) :
    (∀ rid, rid ≠ "" →
      ctx1.client_provided_request_id = true →
      ctx2.client_provided_request_id = true →
      ctx1.request_id = some rid → ctx2.request_id = some rid →
      choose_canary_bucket shaNum dumps r1 ctx1 =
        choose_canary_bucket shaNum dumps r2 ctx2 ∧
      (choose_canary_bucket shaNum dumps r1 ctx1).seed_source = .request_id) ∧
    (ctx1.client_provided_request_id = false →
      ctx2.client_provided_request_id = false →
      ctx1.rows = ctx2.rows →
      (∃ s, dumps ctx1.rows = some s) →
      choose_canary_bucket shaNum dumps r1 ctx1 =
        choose_canary_bucket shaNum dumps r2 ctx2 ∧
      (choose_canary_bucket shaNum dumps r1 ctx1).seed_source = .payload_hash) := by
  constructor
  · intro rid hrid h1 h2 hid1 hid2
    simp [choose_canary_bucket, h1, h2, hid1, hid2, hrid]
  · rintro h1 h2 hrows ⟨s, hs⟩
    rw [hrows] at hs
    simp [choose_canary_bucket, h1, h2, hrows, stable_bucket_from_rows, hs]

/-- Witness for choose_canary_bucket_deterministic: a concrete digest
function, two contexts sharing request id "req-1" with different random
seeds, and two id-less contexts sharing the same rows. -/
theorem choose_canary_bucket_deterministic_witness :
    (choose_canary_bucket (fun s => s.length) (fun _ => some "[]") "r1"
        ⟨some "req-1", true, []⟩ =
      choose_canary_bucket (fun s => s.length) (fun _ => some "[]") "r2"
        ⟨some "req-1", true, []⟩) ∧
    (choose_canary_bucket (fun s => s.length) (fun _ => some "[]") "r1"
        ⟨none, false, []⟩ =
      choose_canary_bucket (fun s => s.length) (fun _ => some "[]") "r2"
        ⟨none, false, []⟩) := by
  have h := choose_canary_bucket_deterministic (fun s => s.length)
    (fun _ => some "[]") "r1" "r2" ⟨some "req-1", true, []⟩ ⟨some "req-1", true, []⟩
  have h2 := choose_canary_bucket_deterministic (fun s => s.length)
    (fun _ => some "[]") "r1" "r2" ⟨none, false, []⟩ ⟨none, false, []⟩
  exact ⟨(h.1 "req-1" (by decide) rfl rfl rfl rfl).1,
    (h2.2 rfl rfl rfl ⟨"[]", rfl⟩).1⟩

/-- C2: the decision invariant — allowed is true exactly when the errors
list is empty, for every registry state and every alias pair. -/
theorem evaluate_promotion_policy_allowed_iff (reg : Registry)
    (model_name from_alias to_alias : String) :
    (evaluate_promotion_policy reg model_name from_alias to_alias).1.allowed = true ↔
      (evaluate_promotion_policy reg model_name from_alias to_alias).1.errors = [] := by
  cases h : reg.aliases model_name from_alias with
  | none =>
    simp [evaluate_promotion_policy, _try_get_alias_version, h]
  | some cv =>
    simp [evaluate_promotion_policy, _try_get_alias_version, h,
      List.length_eq_zero]

/-- C3: alias resolution failure short-circuits with exactly one
MISSING_ALIAS error and no further registry reads; once the alias resolves,
evaluation accumulates — each of MISSING_REQUIRED_TAGS, GATE_NOT_PASSED,
INVALID_RELEASE_STATUS and NOOP_PROMOTION appears in the errors exactly when
its check is violated, independently of the others. -/
theorem evaluate_promotion_policy_accumulates (reg : Registry)
    (model_name from_alias to_alias : String) :
    (reg.aliases model_name from_alias = none →
      (evaluate_promotion_policy reg model_name from_alias to_alias).1.errors.map
          Violation.code = ["MISSING_ALIAS"] ∧
      (evaluate_promotion_policy reg model_name from_alias to_alias).2 =
        [RegCall.getVersionByAlias model_name from_alias,
         RegCall.getVersionByAlias model_name to_alias]) ∧
    (∀ cv, reg.aliases model_name from_alias = some cv →
      (("MISSING_REQUIRED_TAGS" ∈
          (evaluate_promotion_policy reg model_name from_alias to_alias).1.errors.map
            Violation.code ↔
        _missing_required_tags (reg.tags model_name cv) ≠ []) ∧
       ("GATE_NOT_PASSED" ∈
          (evaluate_promotion_policy reg model_name from_alias to_alias).1.errors.map
            Violation.code ↔
        pyStrip ((reg.tags model_name cv TAG_GATE).getD "") ≠ GATE_PASSED) ∧
       ("INVALID_RELEASE_STATUS" ∈
          (evaluate_promotion_policy reg model_name from_alias to_alias).1.errors.map
            Violation.code ↔
        pyStrip ((reg.tags model_name cv TAG_RELEASE_STATUS).getD "") ≠ from_alias) ∧
       ("NOOP_PROMOTION" ∈
          (evaluate_promotion_policy reg model_name from_alias to_alias).1.errors.map
            Violation.code ↔
        reg.aliases model_name to_alias = some cv))) := by
  constructor
  · intro h
    simp [evaluate_promotion_policy, _try_get_alias_version, h]
  · intro cv h
    by_cases h1 : _missing_required_tags (reg.tags model_name cv) = [] <;>
    by_cases h2 : pyStrip ((reg.tags model_name cv TAG_GATE).getD "") = GATE_PASSED <;>
    by_cases h3 :
      pyStrip ((reg.tags model_name cv TAG_RELEASE_STATUS).getD "") = from_alias <;>
    by_cases h4 : reg.aliases model_name to_alias = some cv <;>
    simp [evaluate_promotion_policy, _try_get_alias_version, h, h1, h2, h3, h4]

/-- Witness for evaluate_promotion_policy_accumulates: an empty registry
short-circuits with the single MISSING_ALIAS error. -/
theorem evaluate_promotion_policy_accumulates_witness :
    (evaluate_promotion_policy ⟨fun _ _ => none, fun _ _ _ => none, fun _ => false⟩
        "m" "candidate" "prod").1.errors.map Violation.code = ["MISSING_ALIAS"] :=
  ((evaluate_promotion_policy_accumulates
    ⟨fun _ _ => none, fun _ _ _ => none, fun _ => false⟩ "m" "candidate" "prod").1
    rfl).1

/-- Shared helper: the evaluator trace is mutation-free and replays to the
identity on the registry state. -/
theorem eval_trace_readonly (reg : Registry)
    (model_name from_alias to_alias : String) :
    (evaluate_promotion_policy reg model_name from_alias to_alias).2.all
        (fun c => !c.isMutating) = true ∧
    applyTrace reg (evaluate_promotion_policy reg model_name from_alias to_alias).2 =
      reg := by
  cases h : reg.aliases model_name from_alias with
  | none =>
    simp [evaluate_promotion_policy, _try_get_alias_version, h, applyTrace,
      applyCall, RegCall.isMutating]
  | some cv =>
    by_cases hs : pyStrip ((reg.tags model_name cv TAG_SOURCE_RUN_ID).getD "") = "" <;>
      simp [evaluate_promotion_policy, _try_get_alias_version, h, hs, applyTrace,
        applyCall, RegCall.isMutating]

/-- C4: the evaluator is read-only — its registry trace contains no mutating
call, and replaying the trace leaves the registry state unchanged, whatever
the input. -/
theorem evaluate_promotion_policy_readonly (reg : Registry)
    (model_name from_alias to_alias : String) :
    (evaluate_promotion_policy reg model_name from_alias to_alias).2.all
        (fun c => !c.isMutating) = true ∧
    applyTrace reg (evaluate_promotion_policy reg model_name from_alias to_alias).2 =
      reg :=
  eval_trace_readonly reg model_name from_alias to_alias

/-- C7: the promote CLI mutates nothing and exits 0/2 by decision under
--dry-run, and mutates nothing and exits 2 when the decision is denied even
without --dry-run. -/
theorem promote_main_dry_run_and_denied (reg : Registry)
    (model_name from_alias to_alias : String) :
    ((promote_main reg model_name from_alias to_alias true).2.all
        (fun c => !c.isMutating) = true ∧
      applyTrace reg (promote_main reg model_name from_alias to_alias true).2 = reg ∧
      (promote_main reg model_name from_alias to_alias true).1 =
        (if (evaluate_promotion_policy reg model_name from_alias to_alias).1.allowed
         then 0 else 2)) ∧
    ((evaluate_promotion_policy reg model_name from_alias to_alias).1.allowed = false →
      (promote_main reg model_name from_alias to_alias false).1 = 2 ∧
      (promote_main reg model_name from_alias to_alias false).2.all
        (fun c => !c.isMutating) = true ∧
      applyTrace reg (promote_main reg model_name from_alias to_alias false).2 = reg) := by
  have hro := eval_trace_readonly reg model_name from_alias to_alias
  constructor
  · exact ⟨by simpa [promote_main] using hro.1,
      by simpa [promote_main] using hro.2, by simp [promote_main]⟩
  · intro hdeny
    exact ⟨by simp [promote_main, hdeny],
      by simpa [promote_main, hdeny] using hro.1,
      by simpa [promote_main, hdeny] using hro.2⟩

/-- Witness for promote_main_dry_run_and_denied: on the empty registry the
decision is denied, so the non-dry-run invocation exits 2. -/
theorem promote_main_dry_run_and_denied_witness :
    (promote_main ⟨fun _ _ => none, fun _ _ _ => none, fun _ => false⟩
      "m" "candidate" "prod" false).1 = 2 :=
  ((promote_main_dry_run_and_denied
      ⟨fun _ _ => none, fun _ _ _ => none, fun _ => false⟩
      "m" "candidate" "prod").2 rfl).1

/-- C8 counterexample: on a registry where the prod alias does not resolve,
rollback_prod does not fail with the RollbackBlocked RuntimeError — the
not-found failure of get_model_version_by_alias propagates instead. -/
theorem rollback_prod_counterexample :
    (rollback_prod ⟨fun _ _ => none, fun _ _ _ => none, fun _ => false⟩ "m").1 =
      .error .aliasNotFound ∧
    ¬ (rollback_prod ⟨fun _ _ => none, fun _ _ _ => none, fun _ => false⟩ "m").1 =
      .error .rollbackBlocked :=
  ⟨rfl, fun h => RollbackError.noConfusion (Except.error.inj h)⟩

/-- C8 (amended): when the prod alias does not resolve, rollback_prod fails
with the propagated registry not-found error and mutates nothing; when it
resolves but the previous_prod_version tag is absent or empty, it fails with
the RollbackBlocked error and mutates nothing; on success it repoints the
prod alias to the previous version and tags that restored version with
previous_prod_version = the version just vacated. -/
theorem rollback_prod_spec (reg : Registry) (model_name : String) :
    (reg.aliases model_name ALIAS_PROD = none →
      (rollback_prod reg model_name).1 = .error .aliasNotFound ∧
      applyTrace reg (rollback_prod reg model_name).2 = reg) ∧
    (∀ cur, reg.aliases model_name ALIAS_PROD = some cur →
      pyStrip ((reg.tags model_name cur TAG_PREVIOUS_PROD_VERSION).getD "") = "" →
      (rollback_prod reg model_name).1 = .error .rollbackBlocked ∧
      applyTrace reg (rollback_prod reg model_name).2 = reg) ∧
    (∀ cur, reg.aliases model_name ALIAS_PROD = some cur →
      pyStrip ((reg.tags model_name cur TAG_PREVIOUS_PROD_VERSION).getD "") ≠ "" →
      (rollback_prod reg model_name).1 = .ok () ∧
      (applyTrace reg (rollback_prod reg model_name).2).aliases model_name ALIAS_PROD =
        some (pyStrip ((reg.tags model_name cur TAG_PREVIOUS_PROD_VERSION).getD "")) ∧
      (applyTrace reg (rollback_prod reg model_name).2).tags model_name
          (pyStrip ((reg.tags model_name cur TAG_PREVIOUS_PROD_VERSION).getD ""))
          TAG_PREVIOUS_PROD_VERSION = some cur) := by
  refine ⟨?_, ?_, ?_⟩
  · intro h
    simp [rollback_prod, h, applyTrace, applyCall]
  · intro cur h htag
    simp [rollback_prod, h, htag, applyTrace, applyCall]
  · intro cur h htag
    simp [rollback_prod, h, htag, applyTrace, applyCall]

/-- Witness for rollback_prod_spec: prod points at version 2, which carries
previous_prod_version = 1, so rollback succeeds. -/
theorem rollback_prod_spec_witness :
    (rollback_prod
      ⟨fun m2 a2 => if m2 = "m" ∧ a2 = "prod" then some "2" else none,
       fun m2 v2 k2 =>
         if m2 = "m" ∧ v2 = "2" ∧ k2 = "previous_prod_version" then some "1"
         else none,
       fun _ => false⟩ "m").1 = .ok () :=
  ((rollback_prod_spec
      ⟨fun m2 a2 => if m2 = "m" ∧ a2 = "prod" then some "2" else none,
       fun m2 v2 k2 =>
         if m2 = "m" ∧ v2 = "2" ∧ k2 = "previous_prod_version" then some "1"
         else none,
       fun _ => false⟩ "m").2.2 "2" (by decide) (by decide)).1

/-- C10: a first-ever promotion — prod alias unresolved and the candidate
version carrying no previous_prod_version tag — issues no
previous_prod_version tag write, and rollback_prod on the resulting registry
fails with the RollbackBlocked error and performs no mutating call. -/
theorem first_promotion_not_rollbackable (reg : Registry)
    (model_name cv from_alias : String)
    (hprod : reg.aliases model_name ALIAS_PROD = none)
    (hfresh : pyStrip ((reg.tags model_name cv TAG_PREVIOUS_PROD_VERSION).getD "") = "") :
    (apply_promotion reg model_name cv from_alias).all
        (fun c => ! writesTag TAG_PREVIOUS_PROD_VERSION c) = true ∧
    (rollback_prod
        (applyTrace reg (apply_promotion reg model_name cv from_alias))
        model_name).1 = .error .rollbackBlocked ∧
    (rollback_prod
        (applyTrace reg (apply_promotion reg model_name cv from_alias))
        model_name).2.all (fun c => !c.isMutating) = true := by
  simp only [ALIAS_PROD] at hprod
  simp only [TAG_PREVIOUS_PROD_VERSION] at hfresh
  refine ⟨?_, ?_, ?_⟩
  · simp [apply_promotion, _try_get_prod_version, ALIAS_PROD, hprod, writesTag,
      TAG_RELEASE_STATUS, TAG_PROMOTED_FROM_ALIAS, TAG_PREVIOUS_PROD_VERSION]
  · simp [apply_promotion, _try_get_prod_version, hprod, applyTrace, applyCall,
      rollback_prod, ALIAS_PROD, ALIAS_CHAMPION, TAG_RELEASE_STATUS,
      TAG_PROMOTED_FROM_ALIAS, TAG_PREVIOUS_PROD_VERSION, hfresh]
  · simp [apply_promotion, _try_get_prod_version, hprod, applyTrace, applyCall,
      rollback_prod, ALIAS_PROD, ALIAS_CHAMPION, TAG_RELEASE_STATUS,
      TAG_PROMOTED_FROM_ALIAS, TAG_PREVIOUS_PROD_VERSION, hfresh,
      RegCall.isMutating]

/-- Witness for first_promotion_not_rollbackable: promoting version 1 into an
empty registry and then rolling back hits the RollbackBlocked error. -/
theorem first_promotion_not_rollbackable_witness :
    (rollback_prod
        (applyTrace ⟨fun _ _ => none, fun _ _ _ => none, fun _ => false⟩
          (apply_promotion ⟨fun _ _ => none, fun _ _ _ => none, fun _ => false⟩
            "m" "1" "candidate"))
        "m").1 = .error .rollbackBlocked :=
  (first_promotion_not_rollbackable
    ⟨fun _ _ => none, fun _ _ _ => none, fun _ => false⟩
    "m" "1" "candidate" rfl (by decide)).2.1

/-- Shared helper: the tail of the refresh never touches the prod handle and
only ever adds candidate-slot load attempts. -/
theorem refresh_after_prod_frame {M : Type} (loader : String → Except Unit M)
    (getVer : String → Option String) (settings : Settings) (now : Int)
    (load_candidate : Bool) (st : CacheState M) (attempts : List LoadSlot) :
    (_refresh_after_prod loader getVer settings now load_candidate st
        attempts).state.model_prod = st.model_prod ∧
    ∀ sl ∈ (_refresh_after_prod loader getVer settings now load_candidate st
        attempts).attempts, sl ∈ attempts ∨ sl = LoadSlot.candidate := by
  unfold _refresh_after_prod
  cases load_candidate with
  | false =>
    constructor
    · simp
    · intro sl hsl
      simp at hsl
      exact Or.inl hsl
  | true =>
    cases hc : st.model_candidate with
    | some m =>
      constructor
      · simp [hc]
      · intro sl hsl
        simp [hc] at hsl
        exact Or.inl hsl
    | none =>
      cases hl : loader settings.candidate_alias with
      | error e =>
        constructor
        · simp [hc, hl]
        · intro sl hsl
          simp [hc, hl] at hsl
          rcases hsl with h | h
          · exact Or.inl h
          · exact Or.inr h
      | ok m =>
        constructor
        · simp [hc, hl]
        · intro sl hsl
          simp [hc, hl] at hsl
          rcases hsl with h | h
          · exact Or.inl h
          · exact Or.inr h

/-- C9: a non-forced refresh inside the TTL window is a no-op with no load
attempt; and whatever the TTL state, a refresh never reloads or replaces an
already-loaded prod handle — the prod slot sees no load attempt, so a get
that succeeded once cannot trigger a second prod load. -/
theorem refresh_models_ttl_and_no_reload {M : Type}
    (loader : String → Except Unit M) (getVer : String → Option String)
    (settings : Settings) (now : Int) (force load_candidate : Bool)
    (st : CacheState M) :
    (force = false → now - st.last_refresh_ts < settings.model_cache_ttl_sec →
      _refresh_models_if_needed loader getVer settings now force load_candidate st =
        ⟨st, [], true⟩) ∧
    (∀ h, st.model_prod = some h →
      (_refresh_models_if_needed loader getVer settings now force
          load_candidate st).state.model_prod = some h ∧
      LoadSlot.prod ∉
        (_refresh_models_if_needed loader getVer settings now force
          load_candidate st).attempts) := by
  constructor
  · intro hf httl
    simp [_refresh_models_if_needed, hf, httl]
  · intro h hp
    by_cases hskip :
      ¬ force = true ∧ now - st.last_refresh_ts < settings.model_cache_ttl_sec
    · obtain ⟨hf, httl⟩ := hskip
      rw [Bool.not_eq_true] at hf
      simp [_refresh_models_if_needed, hf, httl, hp]
    · have hframe := refresh_after_prod_frame loader getVer settings now
        load_candidate st ([] : List LoadSlot)
      have hred : _refresh_models_if_needed loader getVer settings now force
          load_candidate st =
          _refresh_after_prod loader getVer settings now load_candidate st [] := by
        rw [_refresh_models_if_needed, if_neg hskip, hp]
      rw [hred]
      refine ⟨by rw [hframe.1, hp], ?_⟩
      intro hmem
      rcases hframe.2 _ hmem with hin | heq
      · simp at hin
      · exact LoadSlot.noConfusion heq

/-- Witness for refresh_models_ttl_and_no_reload: with TTL 60, a non-forced
refresh at tick 10 after a refresh at tick 0 is a no-op, and with the prod
handle already loaded an expired-TTL refresh keeps the handle. -/
theorem refresh_models_ttl_and_no_reload_witness :
    (_refresh_models_if_needed (fun _ => Except.ok 7) (fun _ => none)
        ⟨"m", "prod", "candidate", 10, 60, true⟩ 10 false false
        ⟨some 5, none, none, none, 0⟩ =
      ⟨⟨some 5, none, none, none, 0⟩, [], true⟩) ∧
    (_refresh_models_if_needed (fun _ => Except.ok 7) (fun _ => none)
        ⟨"m", "prod", "candidate", 10, 60, true⟩ 100 false false
        ⟨some 5, none, none, none, 0⟩).state.model_prod = some 5 := by
  have h1 := refresh_models_ttl_and_no_reload (fun _ => Except.ok (7 : Nat))
    (fun _ => none) ⟨"m", "prod", "candidate", 10, 60, true⟩ 10 false false
    ⟨some 5, none, none, none, 0⟩
  have h2 := refresh_models_ttl_and_no_reload (fun _ => Except.ok (7 : Nat))
    (fun _ => none) ⟨"m", "prod", "candidate", 10, 60, true⟩ 100 false false
    ⟨some 5, none, none, none, 0⟩
  exact ⟨h1.1 rfl (by decide), (h2.2 5 rfl).1⟩

/-- Witness for evaluate_promotion_policy_allowed_iff at the empty
registry. -/
theorem evaluate_promotion_policy_allowed_iff_witness :
    (evaluate_promotion_policy ⟨fun _ _ => none, fun _ _ _ => none, fun _ => false⟩
        "m" "candidate" "prod").1.allowed = true ↔
      (evaluate_promotion_policy ⟨fun _ _ => none, fun _ _ _ => none, fun _ => false⟩
        "m" "candidate" "prod").1.errors = [] :=
  evaluate_promotion_policy_allowed_iff
    ⟨fun _ _ => none, fun _ _ _ => none, fun _ => false⟩ "m" "candidate" "prod"

/-- Witness for evaluate_promotion_policy_readonly at the empty registry. -/
theorem evaluate_promotion_policy_readonly_witness :
    applyTrace ⟨fun _ _ => none, fun _ _ _ => none, fun _ => false⟩
        (evaluate_promotion_policy
          ⟨fun _ _ => none, fun _ _ _ => none, fun _ => false⟩
          "m" "candidate" "prod").2 =
      ⟨fun _ _ => none, fun _ _ _ => none, fun _ => false⟩ :=
  (evaluate_promotion_policy_readonly
    ⟨fun _ _ => none, fun _ _ _ => none, fun _ => false⟩ "m" "candidate" "prod").2

end ModelReleasePlatform
